import Mathlib

/-!
Verification of a layered console Tic-Tac-Toe program (src/main.cpp).

The board is a fixed 3x3 grid of characters; ' ' marks an empty cell.
We embed each layer shallowly: `GameBoard` methods are pure functions over
a `Fin 3 → Fin 3 → Char` grid, the repository's single board instance is
passed as explicit state, the service's `MakeMove` returns its success
flag together with the updated board, the controller forwards to the
service, and the presentation turn loop becomes a step function on a
presentation state.
-/

/-- The board: a fixed 3x3 matrix of cell characters
(`std::vector<std::vector<char>> board` with `SIZE = 3`). -/
structure GameBoard where
  board : Fin 3 → Fin 3 → Char
deriving DecidableEq

namespace GameBoard

/-- `GameBoard::SIZE = 3`. -/
def SIZE : Nat := 3

/-- The `GameBoard()` constructor: every cell is `' '`. -/
def new : GameBoard := ⟨fun _ _ => ' '⟩

/-- `GameBoard::Display`: for each row print the cells separated by `"|"`
(a separator after every cell but the last), end the row with a newline,
and print `"-----\n"` after every row but the last. -/
def Display (b : GameBoard) : String :=
  String.join ((List.finRange 3).map (fun i =>
    String.join ((List.finRange 3).map (fun j =>
      String.mk [b.board i j] ++ if (j : Nat) < 3 - 1 then "|" else ""))
    ++ "\n" ++ if (i : Nat) < 3 - 1 then "-----\n" else ""))

/-- `GameBoard::IsFull`: scans every cell; returns false as soon as a cell
equals `' '`, true when none does. -/
def IsFull (b : GameBoard) : Bool :=
  (List.finRange 3).all (fun i => (List.finRange 3).all (fun j => b.board i j != ' '))

/-- `GameBoard::IsWinner`: for each index `i` checks row `i` and column `i`
for three cells equal to `player`, then the two diagonals. -/
def IsWinner (b : GameBoard) (player : Char) : Bool :=
  ((List.finRange 3).any (fun i =>
      (b.board i 0 == player && b.board i 1 == player && b.board i 2 == player) ||
      (b.board 0 i == player && b.board 1 i == player && b.board 2 i == player))) ||
  (b.board 0 0 == player && b.board 1 1 == player && b.board 2 2 == player) ||
  (b.board 0 2 == player && b.board 1 1 == player && b.board 2 0 == player)

end GameBoard

namespace GameRepository

/-- `GameRepository::SaveMove`: unconditionally writes `player` into cell
`(row, col)` of the owned board. -/
def SaveMove (b : GameBoard) (row col : Fin 3) (player : Char) : GameBoard :=
  ⟨fun i j => if i = row ∧ j = col then player else b.board i j⟩

/-- `GameRepository::GetBoard`: returns the current board. -/
def GetBoard (b : GameBoard) : GameBoard := b

/-- `GameRepository::ResetBoard`: replaces the board with a freshly
constructed one. -/
def ResetBoard (_b : GameBoard) : GameBoard := GameBoard.new

end GameRepository

namespace GameService

/-- `GameService::MakeMove`: returns false (leaving the board unchanged)
when `row` or `col` is outside `[0, SIZE)` or the target cell is not `' '`;
otherwise saves the move through the repository and returns true. -/
def MakeMove (b : GameBoard) (row col : Int) (player : Char) : Bool × GameBoard :=
  if h : 0 ≤ row ∧ row < 3 ∧ 0 ≤ col ∧ col < 3 then
    let r : Fin 3 := ⟨row.toNat, by omega⟩
    let c : Fin 3 := ⟨col.toNat, by omega⟩
    if (GameRepository.GetBoard b).board r c != ' ' then
      (false, b)
    else
      (true, GameRepository.SaveMove b r c player)
  else
    (false, b)

/-- `GameService::CheckWinner`: forwards to `GameBoard::IsWinner` on the
repository's current board. -/
def CheckWinner (b : GameBoard) (player : Char) : Bool :=
  (GameRepository.GetBoard b).IsWinner player

/-- `GameService::IsBoardFull`: forwards to `GameBoard::IsFull` on the
repository's current board. -/
def IsBoardFull (b : GameBoard) : Bool :=
  (GameRepository.GetBoard b).IsFull

/-- `GameService::ResetGame`: delegates to `GameRepository::ResetBoard`. -/
def ResetGame (b : GameBoard) : GameBoard :=
  GameRepository.ResetBoard b

/-- `GameService::GetBoard`: returns the repository's current board. -/
def GetBoard (b : GameBoard) : GameBoard :=
  GameRepository.GetBoard b

end GameService

namespace GameController

/-- `GameController::MakeMove`: forwards to the service. -/
def MakeMove (b : GameBoard) (row col : Int) (player : Char) : Bool × GameBoard :=
  GameService.MakeMove b row col player

/-- `GameController::CheckWinner`: forwards to the service. -/
def CheckWinner (b : GameBoard) (player : Char) : Bool :=
  GameService.CheckWinner b player

/-- `GameController::IsBoardFull`: forwards to the service. -/
def IsBoardFull (b : GameBoard) : Bool :=
  GameService.IsBoardFull b

/-- `GameController::ResetGame`: forwards to the service. -/
def ResetGame (b : GameBoard) : GameBoard :=
  GameService.ResetGame b

/-- `GameController::GetBoard`: forwards to the service. -/
def GetBoard (b : GameBoard) : GameBoard :=
  GameService.GetBoard b

end GameController

/-- Outcome of a finished game: one player wins, or a draw. -/
inductive Outcome where
  | Win : Char → Outcome
  | Draw : Outcome
deriving DecidableEq

namespace GamePresentation

/-- State of the presentation turn loop: the repository's board, the
current player, and `some` outcome once the loop has ended. -/
structure PresState where
  board : GameBoard
  currentPlayer : Char
  outcome : Option Outcome
deriving DecidableEq

/-- `GamePresentation::SwitchPlayer`: toggles the current player. -/
def SwitchPlayer (p : Char) : Char :=
  if p == 'X' then 'O' else 'X'

/-- The state at the top of `StartGame`'s loop: the constructor sets
`_currentPlayer = 'X'`, `StartGame` calls `ResetGame()` before looping,
and no outcome has been announced. -/
def startState : PresState :=
  { board := GameController.ResetGame GameBoard.new
    currentPlayer := 'X'
    outcome := none }

/-- One console input `(row, col)` driving one pass of the `StartGame`
loop body. A state with an outcome is terminal (the loop has exited).
A rejected move leaves the state unchanged (`GetPlayerMove` re-prompts).
After an accepted move, `CheckWinner(_currentPlayer)` is consulted first
(Win outcome), then `IsBoardFull()` (Draw outcome); otherwise the player
is switched and the loop continues. -/
def step (s : PresState) (row col : Int) : PresState :=
  match s.outcome with
  | some _ => s
  | none =>
    let res := GameController.MakeMove s.board row col s.currentPlayer
    if res.1 then
      if GameController.CheckWinner res.2 s.currentPlayer then
        { board := res.2, currentPlayer := s.currentPlayer,
          outcome := some (Outcome.Win s.currentPlayer) }
      else if GameController.IsBoardFull res.2 then
        { board := res.2, currentPlayer := s.currentPlayer,
          outcome := some Outcome.Draw }
      else
        { board := res.2, currentPlayer := SwitchPlayer s.currentPlayer,
          outcome := none }
    else
      s

/-- `GamePresentation::DisplayBoard`: a blank line, the board render, a
blank line. -/
def DisplayBoard (b : GameBoard) : String :=
  "\n" ++ (GameController.GetBoard b).Display ++ "\n"

/-- The state after feeding a list of console inputs to the loop, starting
from the initial state. -/
def run (inputs : List (Int × Int)) : PresState :=
  inputs.foldl (fun s m => step s m.1 m.2) startState

end GamePresentation

/-- The 8 winning lines named by the spec: 3 rows, 3 columns, 2 diagonals,
each given as its list of (row, col) coordinates. -/
def specLines : List (List (Fin 3 × Fin 3)) :=
  [[(0,0),(0,1),(0,2)], [(1,0),(1,1),(1,2)], [(2,0),(2,1),(2,2)],
   [(0,0),(1,0),(2,0)], [(0,1),(1,1),(2,1)], [(0,2),(1,2),(2,2)],
   [(0,0),(1,1),(2,2)], [(0,2),(1,1),(2,0)]]

/-- Spec-side restatement of the winner check: some line of `specLines`
has all of its cells equal to `p`. Used to compare `GameBoard.IsWinner`
against the spec's words. -/
def specIsWinner (b : GameBoard) (p : Char) : Bool :=
  specLines.any (fun line => line.all (fun cell => b.board cell.1 cell.2 == p))

/-- Two boards agreeing on every cell are equal. -/
@[ext] theorem GameBoard.ext (a b : GameBoard)
    (h : ∀ i j, a.board i j = b.board i j) : a = b := by
  cases a
  cases b
  simp only [GameBoard.mk.injEq]
  funext i j
  exact h i j

theorem finRange_three : List.finRange 3 = [0, 1, 2] := by decide

/-- The source's interleaved row/column scan agrees with the spec's
list-of-eight-lines formulation. -/
theorem isWinner_eq_spec (b : GameBoard) (p : Char) :
    b.IsWinner p = specIsWinner b p := by
  simp only [GameBoard.IsWinner, specIsWinner, specLines, finRange_three,
    List.any_cons, List.any_nil, List.all_cons, List.all_nil]
  generalize (b.board 0 0 == p) = a00
  generalize (b.board 0 1 == p) = a01
  generalize (b.board 0 2 == p) = a02
  generalize (b.board 1 0 == p) = a10
  generalize (b.board 1 1 == p) = a11
  generalize (b.board 1 2 == p) = a12
  generalize (b.board 2 0 == p) = a20
  generalize (b.board 2 1 == p) = a21
  generalize (b.board 2 2 == p) = a22
  revert a00 a01 a02 a10 a11 a12 a20 a21 a22
  decide

theorem specIsWinner_iff (b : GameBoard) (p : Char) :
    specIsWinner b p = true ↔
      ∃ line ∈ specLines, ∀ cell ∈ line, b.board cell.1 cell.2 = p := by
  simp [specIsWinner, List.any_eq_true, List.all_eq_true]

/-- Shape of `MakeMove` at in-range coordinates. -/
theorem makeMove_in_range (b : GameBoard) (r c : Fin 3) (p : Char) :
    GameService.MakeMove b (r.val : Int) (c.val : Int) p =
      if b.board r c != ' ' then (false, b)
      else (true, GameRepository.SaveMove b r c p) := by
  unfold GameService.MakeMove
  rw [dif_pos (by omega)]
  simp [GameRepository.GetBoard]

theorem switchPlayer_cases (p : Char) :
    GamePresentation.SwitchPlayer p = 'X' ∨ GamePresentation.SwitchPlayer p = 'O' := by
  unfold GamePresentation.SwitchPlayer
  by_cases h : p == 'X' <;> simp [h]

theorem step_player (s : GamePresentation.PresState) (row col : Int) :
    (GamePresentation.step s row col).currentPlayer = s.currentPlayer ∨
    (GamePresentation.step s row col).currentPlayer =
      GamePresentation.SwitchPlayer s.currentPlayer := by
  unfold GamePresentation.step
  cases s.outcome <;> simp
  split <;> [skip; simp]
  split
  · simp
  · split <;> simp

theorem run_player_mem (inputs : List (Int × Int)) :
    (GamePresentation.run inputs).currentPlayer = 'X' ∨
    (GamePresentation.run inputs).currentPlayer = 'O' := by
  have key : ∀ (l : List (Int × Int)) (s : GamePresentation.PresState),
      s.currentPlayer = 'X' ∨ s.currentPlayer = 'O' →
      (l.foldl (fun s m => GamePresentation.step s m.1 m.2) s).currentPlayer = 'X' ∨
      (l.foldl (fun s m => GamePresentation.step s m.1 m.2) s).currentPlayer = 'O' := by
    intro l
    induction l with
    | nil => intro s hs; exact hs
    | cons m t ih =>
      intro s hs
      apply ih
      rcases step_player s m.1 m.2 with h | h
      · rw [h]; exact hs
      · rw [h]; exact switchPlayer_cases s.currentPlayer
  exact key inputs GamePresentation.startState (Or.inl rfl)

/-- Claim C1: `MakeMove(r,c,p)` returns false and leaves the board
unchanged when the row or column is outside `[0,3)` or the target cell is
not empty; otherwise it returns true and sets exactly cell `(r,c)` to `p`,
leaving every other cell unchanged. -/
theorem claim_C1 :
    (∀ (b : GameBoard) (row col : Int) (p : Char),
        (row < 0 ∨ 3 ≤ row ∨ col < 0 ∨ 3 ≤ col) →
        GameService.MakeMove b row col p = (false, b)) ∧
    (∀ (b : GameBoard) (r c : Fin 3) (p : Char),
        (b.board r c ≠ ' ' →
          GameService.MakeMove b (r.val : Int) (c.val : Int) p = (false, b)) ∧
        (b.board r c = ' ' →
          (GameService.MakeMove b (r.val : Int) (c.val : Int) p).1 = true ∧
          (GameService.MakeMove b (r.val : Int) (c.val : Int) p).2.board r c = p ∧
          ∀ i j : Fin 3, ¬(i = r ∧ j = c) →
            (GameService.MakeMove b (r.val : Int) (c.val : Int) p).2.board i j =
              b.board i j)) := by
  constructor
  · intro b row col p h
    unfold GameService.MakeMove
    rw [dif_neg (by omega)]
  · intro b r c p
    constructor
    · intro h
      rw [makeMove_in_range]
      simp [bne_iff_ne, h]
    · intro h
      rw [makeMove_in_range]
      simp [h, GameRepository.SaveMove]
      intro i j hij hi hj
      exact absurd hj (hij hi)

/-- Witness for C1: a concrete out-of-range move, a concrete occupied-cell
move, and a concrete accepted move. -/
theorem claim_C1_witness :
    GameService.MakeMove GameBoard.new 3 0 'X' = (false, GameBoard.new) ∧
    GameService.MakeMove (⟨fun _ _ => 'X'⟩ : GameBoard)
      (((0 : Fin 3)).val : Int) (((0 : Fin 3)).val : Int) 'O' =
      (false, (⟨fun _ _ => 'X'⟩ : GameBoard)) ∧
    (GameService.MakeMove GameBoard.new
      (((0 : Fin 3)).val : Int) (((0 : Fin 3)).val : Int) 'X').1 = true :=
  ⟨claim_C1.1 GameBoard.new 3 0 'X' (by omega),
   (claim_C1.2 (⟨fun _ _ => 'X'⟩ : GameBoard) 0 0 'O').1 (by decide),
   ((claim_C1.2 GameBoard.new 0 0 'X').2 rfl).1⟩

/-- Claim C2: `IsFull()` returns true iff none of the 9 cells is the
empty mark `' '`. -/
theorem claim_C2 (b : GameBoard) :
    b.IsFull = true ↔ ∀ i j, b.board i j ≠ ' ' := by
  simp [GameBoard.IsFull, List.all_eq_true, List.mem_finRange]

/-- Witness for C2: the all-`'X'` board is full. -/
theorem claim_C2_witness :
    (⟨fun _ _ => 'X'⟩ : GameBoard).IsFull = true :=
  (claim_C2 (⟨fun _ _ => 'X'⟩ : GameBoard)).mpr (by decide)

/-- Claim C3: `IsWinner(p)` returns true iff at least one of the 8 lines
(3 rows, 3 columns, 2 diagonals) has all three of its cells equal to `p`. -/
theorem claim_C3 (b : GameBoard) (p : Char) :
    b.IsWinner p = true ↔
      ∃ line ∈ specLines, ∀ cell ∈ line, b.board cell.1 cell.2 = p := by
  rw [isWinner_eq_spec]
  exact specIsWinner_iff b p

/-- Witness for C3: the all-`'X'` board is a win for `'X'`. -/
theorem claim_C3_witness :
    (⟨fun _ _ => 'X'⟩ : GameBoard).IsWinner 'X' = true :=
  (claim_C3 (⟨fun _ _ => 'X'⟩ : GameBoard) 'X').mpr (by decide)

/-- Claim C4: after `ResetGame()` the board is the freshly constructed
all-empty board, so `IsBoardFull()` is false and `CheckWinner(p)` is false
for both `'X'` and `'O'`, for any prior board state. -/
theorem claim_C4 (b : GameBoard) :
    GameService.ResetGame b = GameBoard.new ∧
    GameService.IsBoardFull (GameService.ResetGame b) = false ∧
    GameService.CheckWinner (GameService.ResetGame b) 'X' = false ∧
    GameService.CheckWinner (GameService.ResetGame b) 'O' = false :=
  ⟨rfl, rfl, rfl, rfl⟩

/-- Claim C5: every `GameController` operation is extensionally equal to
the corresponding `GameService` operation: same result, same resulting
board state, for every argument. -/
theorem claim_C5 :
    (∀ (b : GameBoard) (row col : Int) (p : Char),
      GameController.MakeMove b row col p = GameService.MakeMove b row col p) ∧
    (∀ (b : GameBoard) (p : Char),
      GameController.CheckWinner b p = GameService.CheckWinner b p) ∧
    (∀ b : GameBoard, GameController.IsBoardFull b = GameService.IsBoardFull b) ∧
    (∀ b : GameBoard, GameController.ResetGame b = GameService.ResetGame b) ∧
    (∀ b : GameBoard, GameController.GetBoard b = GameService.GetBoard b) :=
  ⟨fun _ _ _ _ => rfl, fun _ _ => rfl, fun _ => rfl, fun _ => rfl, fun _ => rfl⟩

/-- Claim C6: in the turn loop, after every accepted move the winner check
for the current player runs before the board-full check: a winning move
yields GameOver(Win) for that player regardless of whether the board is
also full; otherwise a full board yields GameOver(Draw); otherwise the
turn switches and the loop continues. A state with an outcome is terminal
and accepts no further moves. -/
theorem claim_C6 (s : GamePresentation.PresState) (row col : Int) :
    (∀ o : Outcome, s.outcome = some o → GamePresentation.step s row col = s) ∧
    (s.outcome = none →
      ((GameController.MakeMove s.board row col s.currentPlayer).1 = false →
        GamePresentation.step s row col = s) ∧
      ((GameController.MakeMove s.board row col s.currentPlayer).1 = true →
        (GameController.CheckWinner
            (GameController.MakeMove s.board row col s.currentPlayer).2
            s.currentPlayer = true →
          GamePresentation.step s row col =
            { board := (GameController.MakeMove s.board row col s.currentPlayer).2,
              currentPlayer := s.currentPlayer,
              outcome := some (Outcome.Win s.currentPlayer) }) ∧
        (GameController.CheckWinner
            (GameController.MakeMove s.board row col s.currentPlayer).2
            s.currentPlayer = false →
          GameController.IsBoardFull
            (GameController.MakeMove s.board row col s.currentPlayer).2 = true →
          GamePresentation.step s row col =
            { board := (GameController.MakeMove s.board row col s.currentPlayer).2,
              currentPlayer := s.currentPlayer,
              outcome := some Outcome.Draw }) ∧
        (GameController.CheckWinner
            (GameController.MakeMove s.board row col s.currentPlayer).2
            s.currentPlayer = false →
          GameController.IsBoardFull
            (GameController.MakeMove s.board row col s.currentPlayer).2 = false →
          GamePresentation.step s row col =
            { board := (GameController.MakeMove s.board row col s.currentPlayer).2,
              currentPlayer := GamePresentation.SwitchPlayer s.currentPlayer,
              outcome := none }))) := by
  refine ⟨?_, ?_⟩
  · intro o ho
    simp [GamePresentation.step, ho]
  · intro hn
    refine ⟨?_, ?_⟩
    · intro hm
      simp [GamePresentation.step, hn, hm]
    · intro hm
      refine ⟨?_, ?_, ?_⟩
      · intro hw
        simp [GamePresentation.step, hn, hm, hw]
      · intro hw hf
        simp [GamePresentation.step, hn, hm, hw, hf]
      · intro hw hf
        simp [GamePresentation.step, hn, hm, hw, hf]

/-- Witness for C6: a terminal drawn state ignores further moves, and the
opening move (0,0) from the start state is accepted, wins nothing, fills
nothing, and hands the turn to `'O'`. -/
theorem claim_C6_witness :
    GamePresentation.step
      { board := GameBoard.new, currentPlayer := 'X',
        outcome := some Outcome.Draw } 0 0 =
      { board := GameBoard.new, currentPlayer := 'X',
        outcome := some Outcome.Draw } ∧
    GamePresentation.step GamePresentation.startState 0 0 =
      { board := (GameController.MakeMove GamePresentation.startState.board 0 0
          GamePresentation.startState.currentPlayer).2,
        currentPlayer :=
          GamePresentation.SwitchPlayer GamePresentation.startState.currentPlayer,
        outcome := none } :=
  ⟨(claim_C6 ({ board := GameBoard.new, currentPlayer := 'X',
                outcome := some Outcome.Draw } : GamePresentation.PresState) 0 0).1
        Outcome.Draw rfl,
   ((((claim_C6 GamePresentation.startState 0 0).2 rfl).2 (by decide)).2.2)
     (by decide) (by decide)⟩

/-- Claim C7: the current player starts as `'X'` and alternates strictly:
iterating `SwitchPlayer` n times from `'X'` yields `'X'` for even n and
`'O'` for odd n; `SwitchPlayer` applied twice is the identity on the
player marks; and every state reachable by the turn loop has current
player `'X'` or `'O'`. -/
theorem claim_C7 :
    GamePresentation.startState.currentPlayer = 'X' ∧
    (∀ n : Nat,
      GamePresentation.SwitchPlayer^[n] 'X' = if n % 2 = 0 then 'X' else 'O') ∧
    (∀ p : Char, (p = 'X' ∨ p = 'O') →
      GamePresentation.SwitchPlayer (GamePresentation.SwitchPlayer p) = p) ∧
    (∀ inputs : List (Int × Int),
      (GamePresentation.run inputs).currentPlayer = 'X' ∨
      (GamePresentation.run inputs).currentPlayer = 'O') := by
  refine ⟨rfl, ?_, ?_, run_player_mem⟩
  · intro n
    induction n with
    | zero => rfl
    | succ k ih =>
      rw [Function.iterate_succ_apply', ih]
      by_cases h : k % 2 = 0
      · have h2 : (k + 1) % 2 ≠ 0 := by omega
        simp [h, h2, GamePresentation.SwitchPlayer]
      · have h2 : (k + 1) % 2 = 0 := by omega
        simp [h, h2, GamePresentation.SwitchPlayer]
  · rintro p (rfl | rfl) <;> rfl

/-- Witness for C7: toggling twice from `'X'` returns to `'X'`. -/
theorem claim_C7_witness :
    GamePresentation.SwitchPlayer (GamePresentation.SwitchPlayer 'X') = 'X' :=
  claim_C7.2.2.1 'X' (Or.inl rfl)

/-- Claim C8: a board render is exactly three `c|c|c` rows separated by a
`-----` line between consecutive rows (none after the last), and the
presentation layer's `DisplayBoard` brackets that render with one blank
line before and one after. -/
theorem claim_C8 (b : GameBoard) :
    GameBoard.Display b =
      String.mk [b.board 0 0, '|', b.board 0 1, '|', b.board 0 2, '\n',
                 '-', '-', '-', '-', '-', '\n',
                 b.board 1 0, '|', b.board 1 1, '|', b.board 1 2, '\n',
                 '-', '-', '-', '-', '-', '\n',
                 b.board 2 0, '|', b.board 2 1, '|', b.board 2 2, '\n'] ∧
    GamePresentation.DisplayBoard b =
      String.mk ['\n',
                 b.board 0 0, '|', b.board 0 1, '|', b.board 0 2, '\n',
                 '-', '-', '-', '-', '-', '\n',
                 b.board 1 0, '|', b.board 1 1, '|', b.board 1 2, '\n',
                 '-', '-', '-', '-', '-', '\n',
                 b.board 2 0, '|', b.board 2 1, '|', b.board 2 2, '\n',
                 '\n'] := by
  constructor <;> rfl

/-- Claim C9: `MakeMove` does not validate the player mark: at any empty
in-range cell, `MakeMove(r,c,' ')` returns true yet leaves the board
identical to before, so a subsequent `MakeMove` at the same cell with any
mark also succeeds. -/
theorem claim_C9 :
    ∀ (b : GameBoard) (r c : Fin 3), b.board r c = ' ' →
      (GameService.MakeMove b (r.val : Int) (c.val : Int) ' ').1 = true ∧
      (GameService.MakeMove b (r.val : Int) (c.val : Int) ' ').2 = b ∧
      ∀ p : Char,
        (GameService.MakeMove
          (GameService.MakeMove b (r.val : Int) (c.val : Int) ' ').2
          (r.val : Int) (c.val : Int) p).1 = true := by
  intro b r c h
  have hb : (GameService.MakeMove b (r.val : Int) (c.val : Int) ' ').2 = b := by
    rw [makeMove_in_range]
    simp [h, GameRepository.SaveMove]
    ext i j
    by_cases hij : i = r ∧ j = c
    · simp [hij.1, hij.2, h]
    · simp [if_neg hij]
  refine ⟨?_, hb, ?_⟩
  · rw [makeMove_in_range]
    simp [h]
  · intro p
    rw [hb, makeMove_in_range]
    simp [h]

/-- Witness for C9: playing `' '` at (0,0) on the fresh board succeeds
and leaves the board unchanged. -/
theorem claim_C9_witness :
    (GameService.MakeMove GameBoard.new
      (((0 : Fin 3)).val : Int) (((0 : Fin 3)).val : Int) ' ').1 = true ∧
    (GameService.MakeMove GameBoard.new
      (((0 : Fin 3)).val : Int) (((0 : Fin 3)).val : Int) ' ').2 = GameBoard.new :=
  ⟨(claim_C9 GameBoard.new 0 0 rfl).1, (claim_C9 GameBoard.new 0 0 rfl).2.1⟩

/-- Claim C10: `IsWinner` does not require a real player mark: any board
with a line of three empty cells — in particular the freshly reset board —
makes `IsWinner(' ')` true, so right after `ResetGame()`,
`CheckWinner(' ')` returns true. -/
theorem claim_C10 :
    (∀ b : GameBoard,
      (∃ line ∈ specLines, ∀ cell ∈ line, b.board cell.1 cell.2 = ' ') →
      b.IsWinner ' ' = true) ∧
    (∀ b : GameBoard,
      GameService.CheckWinner (GameService.ResetGame b) ' ' = true) := by
  constructor
  · intro b hline
    rw [isWinner_eq_spec]
    exact (specIsWinner_iff b ' ').mpr hline
  · intro b
    rfl

/-- Witness for C10: the fresh board's top row is empty, and the winner
check for `' '` after a reset reports true. -/
theorem claim_C10_witness :
    GameBoard.new.IsWinner ' ' = true ∧
    GameService.CheckWinner (GameService.ResetGame GameBoard.new) ' ' = true :=
  ⟨claim_C10.1 GameBoard.new (by decide), claim_C10.2 GameBoard.new⟩
